import Mathlib

/-!
Shallow embedding of the `k8s-user-platform` backend
(`src/backend/main.go` together with the table schema in
`src/migrations/001_init.sql`).

The backend is a CRUD HTTP service over one Postgres table
`users (id SERIAL PRIMARY KEY, name TEXT NOT NULL,
email TEXT UNIQUE NOT NULL, date_registered TIMESTAMP DEFAULT now() NOT NULL)`.
We model:

* JSON values and the relevant fragment of the Go `encoding/json`
  decoding into the three request structs (unknown object keys are
  ignored, key matching is case-insensitive, `null` leaves a field at
  its zero value, a stream decoder reads only the first JSON value and
  ignores trailing bytes);
* the database state as a list of rows plus the SERIAL counter, and
  the effect of the four fixed SQL statements, with the `UNIQUE`
  constraint on `email` raising an error on INSERT/UPDATE conflicts;
* environmental database failures (connection errors and the like) as
  an optional injected fault carrying the raw error message, and a
  mid-iteration row-scan failure for the list query as an optional
  failing row index;
* the four HTTP handlers `createUserHandler`, `listUsersHandler`,
  `updateUserHandler`, `deleteUserHandler` as functions from method,
  decoded body, database state and fault to an HTTP response (status
  code and exact body bytes) and the resulting database state.
-/

namespace UserPlatform

/-- A JSON value. Objects keep their key/value pairs in source order
(the Go decoder processes them in order, the last binding of a key wins). -/
inductive Json where
  | null
  | bool (b : Bool)
  | num (n : Int)
  | str (s : String)
  | arr (elems : List Json)
  | obj (fields : List (String × Json))
deriving Repr

/-- The request/response record for a user, mirroring
`type User struct with Name and Email` in `main.go`. -/
structure User where
  name : String
  email : String
deriving Repr, BEq, DecidableEq

/-- ASCII case folding of one character (the struct tags of this
program are plain ASCII, so the Go fold coincides with the ASCII one on
every key that can match them). -/
def foldChar (c : Char) : Char :=
  if 'A' ≤ c && c ≤ 'Z' then Char.ofNat (c.toNat + 32) else c

/-- Case folding of a string, character by character. -/
def foldCase (s : String) : String :=
  String.mk (s.data.map foldChar)

/-- The Go `encoding/json` decoder matches an object key to a struct field
case-insensitively (exact matches and case-folded matches both bind the
field; the struct tags here are `name`, `email`, `oldEmail`). -/
def keyMatches (k tag : String) : Bool :=
  k == tag || foldCase k == foldCase tag

/-- Decode one string-typed struct field from the key/value pairs of a
JSON object, following Go: keys are processed in order, the last
matching binding wins, a `null` value leaves the field unchanged, a
matching value of any other non-string kind is a type error, and a
missing key leaves the zero value `""`. Returns `none` on a type
error. -/
def decodeStrField (kvs : List (String × Json)) (tag : String) : Option String :=
  kvs.foldl
    (fun acc kv =>
      match acc with
      | none => none
      | some cur =>
        if keyMatches kv.1 tag then
          match kv.2 with
          | Json.str s => some s
          | Json.null => some cur
          | _ => none
        else some cur)
    (some "")

/-- Decode the body of a create request into `User`
(struct fields `name`, `email`), following Go: a top-level `null`
leaves both fields at their zero value, a top-level object decodes each
field, any other top-level value is an error. -/
def decodeCreate (j : Json) : Option User :=
  match j with
  | Json.null => some ⟨"", ""⟩
  | Json.obj kvs => do
      let n ← decodeStrField kvs "name"
      let e ← decodeStrField kvs "email"
      some ⟨n, e⟩
  | _ => none

/-- Decode the body of a delete request (anonymous struct with the
single field `email`). -/
def decodeDelete (j : Json) : Option String :=
  match j with
  | Json.null => some ""
  | Json.obj kvs => decodeStrField kvs "email"
  | _ => none

/-- The decoded body of an update request (anonymous struct with
fields `oldEmail`, `name`, `email`). -/
structure UpdateInput where
  oldEmail : String
  newName : String
  newEmail : String
deriving Repr, BEq, DecidableEq

/-- Decode the body of an update request. -/
def decodeUpdate (j : Json) : Option UpdateInput :=
  match j with
  | Json.null => some ⟨"", "", ""⟩
  | Json.obj kvs => do
      let o ← decodeStrField kvs "oldEmail"
      let n ← decodeStrField kvs "name"
      let e ← decodeStrField kvs "email"
      some ⟨o, n, e⟩
  | _ => none

/-- A request body as seen by `json.NewDecoder(r.Body).Decode`:
`none` when the first JSON value in the stream is malformed, otherwise
the first JSON value together with whatever trailing bytes follow it
(the stream decoder never reads past the first value). -/
def Body := Option (Json × String)

/-- One row of the `users` table. `id` is the SERIAL primary key,
`dateRegistered` the timestamp assigned by `now()` at insertion. -/
structure Row where
  id : Nat
  name : String
  email : String
  dateRegistered : Nat
deriving Repr, BEq, DecidableEq

/-- The database state: the rows of `users` and the next value of the
`id` SERIAL sequence. -/
structure DBState where
  rows : List Row
  nextId : Nat
deriving Repr, BEq, DecidableEq

/-- The raw error text Postgres produces when the `UNIQUE` constraint
on `email` is violated. -/
def duplicateEmailMsg : String :=
  "ERROR: duplicate key value violates unique constraint \"users_email_key\" (SQLSTATE 23505)"

/-- Semantics of `INSERT INTO users (name, email) VALUES ($1, $2)`: fails with a
unique-violation error when a row with the same email exists, otherwise
appends a fresh row with the next SERIAL id and `date_registered`
set to the current time `now`. -/
def insertUser (st : DBState) (name email : String) (now : Nat) : Except String DBState :=
  if st.rows.any (fun r => r.email == email) then
    Except.error duplicateEmailMsg
  else
    Except.ok { rows := st.rows ++ [⟨st.nextId, name, email, now⟩],
                nextId := st.nextId + 1 }

/-- Semantics of `DELETE FROM users WHERE email = $1`: removes every row whose
email matches (at most one under the uniqueness invariant). Plain
deletes cannot violate any constraint of this schema. -/
def deleteUser (st : DBState) (email : String) : DBState :=
  { st with rows := st.rows.filter (fun r => r.email != email) }

/-- Semantics of `UPDATE users SET name = $1, email = $2 WHERE email = $3`: fails
with a unique-violation error when some row matches `oldEmail` and a
different row already carries `newEmail`; otherwise rewrites name and
email of every matching row, leaving `id` and `date_registered`
untouched. -/
def updateUser (st : DBState) (newName newEmail oldEmail : String) :
    Except String DBState :=
  if st.rows.any (fun r => r.email == oldEmail)
      && st.rows.any (fun r => r.email == newEmail && r.email != oldEmail) then
    Except.error duplicateEmailMsg
  else
    Except.ok { st with
      rows := st.rows.map (fun r =>
        if r.email == oldEmail then { r with name := newName, email := newEmail } else r) }

/-- Semantics of `SELECT name, email FROM users`: the projection the list handler
scans, one `User` per row in table order. -/
def selectUsers (st : DBState) : List User :=
  st.rows.map (fun r => ⟨r.name, r.email⟩)

/-- An environmental database fault: `some msg` means the statement
fails at the backend (connection loss, timeout, ...) with raw error
text `msg`; `none` means the statement reaches the table and behaves
as the SQL semantics above dictate. -/
def DBFault := Option String

/-- An HTTP response: status code and the exact body bytes written. -/
structure Response where
  status : Nat
  body : String
deriving Repr, BEq, DecidableEq

/-- Model of `http.Error(w, msg, code)`: it writes `msg` followed by a newline. -/
def httpError (msg : String) (code : Nat) : Response :=
  { status := code, body := msg ++ "\n" }

/-- Two lowercase hex digits of `n < 256`, for `\u00XX` escapes. -/
def hexByte (n : Nat) : String :=
  let digit := fun (d : Nat) =>
    if d < 10 then Char.ofNat (48 + d) else Char.ofNat (87 + d)
  String.mk [digit (n / 16 % 16), digit (n % 16)]

/-- How the Go `encoding/json` encoder escapes one character inside a string
literal (HTML-escaping enabled, the `json.Encoder` default). -/
def escapeChar (c : Char) : String :=
  if c = '"' then "\\\""
  else if c = '\\' then "\\\\"
  else if c = '\n' then "\\n"
  else if c = '\r' then "\\r"
  else if c = '\t' then "\\t"
  else if c = '<' then "\\u003c"
  else if c = '>' then "\\u003e"
  else if c = '&' then "\\u0026"
  else if c.toNat < 0x20 then "\\u00" ++ hexByte c.toNat
  else String.singleton c

/-- A JSON string literal for `s`, as the Go encoder writes it. -/
def encodeJsonString (s : String) : String :=
  "\"" ++ String.join (s.data.map escapeChar) ++ "\""

/-- One `User` as the encoder writes it (struct field order, tags
`name` then `email`). -/
def encodeUser (u : User) : String :=
  "\x7b\"name\":" ++ encodeJsonString u.name
    ++ ",\"email\":" ++ encodeJsonString u.email ++ "\x7d"

/-- Model of `json.NewEncoder(w).Encode(users)` on the `[]User`
slice: the slice is **nil** when the loop appended nothing, and Go
encodes a nil slice as the JSON literal `null`, not `[]`; `Encode`
always appends a final newline. -/
def encodeUsers (us : List User) : String :=
  (if us.isEmpty then "null"
   else "[" ++ String.intercalate "," (us.map encodeUser) ++ "]") ++ "\n"

/-- Handler `createUserHandler`: POST only, decode `{name, email}`, reject
empty fields, run the INSERT (subject to an injected fault), answer
201 `User added`. A database failure is echoed raw after the prefix
`Database error: `. Returns the response and the database state after
the request. -/
def createUserHandler (method : String) (body : Body) (st : DBState)
    (now : Nat) (fault : DBFault) : Response × DBState :=
  if method != "POST" then
    (httpError "Method not allowed" 405, st)
  else
    match body with
    | none => (httpError "Invalid JSON" 400, st)
    | some (j, _) =>
      match decodeCreate j with
      | none => (httpError "Invalid JSON" 400, st)
      | some input =>
        if input.name == "" || input.email == "" then
          (httpError "Name and email are required" 400, st)
        else
          match (match fault with
                 | some msg => Except.error msg
                 | none => insertUser st input.name input.email now) with
          | Except.error e => (httpError ("Database error: " ++ e) 500, st)
          | Except.ok st2 => ({ status := 201, body := "User added" }, st2)

/-- Handler `listUsersHandler`: GET only, run the SELECT (subject to an
injected query fault, echoed raw), scan the rows one by one
(`scanFail = some k` makes scanning row `k` fail, answered with the
fixed body `Scan error`), then encode the accumulated slice. The
state is never modified. -/
def listUsersHandler (method : String) (st : DBState)
    (queryFault : DBFault) (scanFail : Option Nat) : Response :=
  if method != "GET" then
    httpError "Method not allowed" 405
  else
    match queryFault with
    | some msg => httpError ("Database error: " ++ msg) 500
    | none =>
      let users := selectUsers st
      match scanFail with
      | some k =>
        if k < users.length then httpError "Scan error" 500
        else { status := 200, body := encodeUsers users }
      | none => { status := 200, body := encodeUsers users }

/-- Handler `deleteUserHandler`: DELETE only, decode `{email}`, reject empty,
run the DELETE (subject to an injected fault, answered with the fixed
body `Database error` — the raw message is **not** echoed), answer
200 `User deleted`. -/
def deleteUserHandler (method : String) (body : Body) (st : DBState)
    (fault : DBFault) : Response × DBState :=
  if method != "DELETE" then
    (httpError "Method not allowed" 405, st)
  else
    match body with
    | none => (httpError "Invalid JSON" 400, st)
    | some (j, _) =>
      match decodeDelete j with
      | none => (httpError "Invalid JSON" 400, st)
      | some email =>
        if email == "" then
          (httpError "Email is required" 400, st)
        else
          match fault with
          | some _ => (httpError "Database error" 500, st)
          | none => ({ status := 200, body := "User deleted" }, deleteUser st email)

/-- Handler `updateUserHandler`: PUT only, decode `{oldEmail, name, email}`,
reject any empty field, run the UPDATE (an injected fault or a unique
violation is answered with the fixed body `Database error` — the raw
message is **not** echoed), answer 200 `User updated`. -/
def updateUserHandler (method : String) (body : Body) (st : DBState)
    (fault : DBFault) : Response × DBState :=
  if method != "PUT" then
    (httpError "Method not allowed" 405, st)
  else
    match body with
    | none => (httpError "Invalid JSON" 400, st)
    | some (j, _) =>
      match decodeUpdate j with
      | none => (httpError "Invalid JSON" 400, st)
      | some input =>
        if input.oldEmail == "" || input.newName == "" || input.newEmail == "" then
          (httpError "All fields are required" 400, st)
        else
          match (match fault with
                 | some msg => Except.error msg
                 | none => updateUser st input.newName input.newEmail input.oldEmail) with
          | Except.error _ => (httpError "Database error" 500, st)
          | Except.ok st2 => ({ status := 200, body := "User updated" }, st2)

/-- Tests whether `sub` occurs as a contiguous run somewhere in `l`. -/
def subOccurs (sub : List Char) : List Char → Bool
  | [] => sub.isEmpty
  | c :: t => sub.isPrefixOf (c :: t) || subOccurs sub t

/-- Tests whether `sub` occurs somewhere inside `s`. -/
def strContains (s sub : String) : Bool :=
  subOccurs sub.data s.data

/-- Every row stored in `st` has a non-empty name and a non-empty
email (the invariant maintained by the presence checks). -/
def goodState (st : DBState) : Prop :=
  ∀ r ∈ st.rows, r.name ≠ "" ∧ r.email ≠ ""

/-! ### Helper lemmas -/

/-- Mapping a guarded rewrite over a list whose elements all fail the
guard is the identity. -/
theorem map_guard_id {α : Type} (l : List α) (p : α → Bool) (f : α → α)
    (h : ∀ a ∈ l, p a = false) :
    l.map (fun a => if p a then f a else a) = l := by
  induction l with
  | nil => rfl
  | cons x xs ih =>
    simp only [List.map_cons, h x (List.mem_cons_self x xs), if_neg Bool.false_ne_true,
      Bool.false_eq_true, if_false, List.cons.injEq, true_and]
    exact ih (fun a ha => h a (List.mem_cons_of_mem x ha))

/-- Mapping a guarded rewrite (propositional guard) over a list whose
elements all fail the guard is the identity. -/
theorem map_guard_id_prop {α : Type} (l : List α) (p : α → Prop)
    [DecidablePred p] (f : α → α) (h : ∀ a ∈ l, ¬ p a) :
    l.map (fun a => if p a then f a else a) = l := by
  induction l with
  | nil => rfl
  | cons x xs ih =>
    rw [List.map_cons, if_neg (h x (List.mem_cons_self x xs)),
      ih (fun a ha => h a (List.mem_cons_of_mem x ha))]

/-- Filtering with a predicate every element satisfies is the
identity. -/
theorem filter_all_true {α : Type} (l : List α) (p : α → Bool)
    (h : ∀ a ∈ l, p a = true) :
    l.filter p = l := by
  induction l with
  | nil => rfl
  | cons x xs ih =>
    simp only [List.filter_cons, h x (List.mem_cons_self x xs), if_true]
    exact congrArg (x :: ·) (ih (fun a ha => h a (List.mem_cons_of_mem x ha)))

/-- The outcome of `createUserHandler` on the state: either the state
is untouched, or exactly one fresh row was appended, its fields taken
from a request that passed the non-empty checks, its id the next
SERIAL value and its timestamp the current time. -/
theorem create_state_cases (method : String) (body : Body) (st : DBState)
    (now : Nat) (fault : DBFault) :
    (createUserHandler method body st now fault).2 = st
    ∨ ∃ name email, name ≠ "" ∧ email ≠ ""
        ∧ (createUserHandler method body st now fault).2
            = ⟨st.rows ++ [⟨st.nextId, name, email, now⟩], st.nextId + 1⟩ := by
  unfold createUserHandler
  split
  · exact Or.inl rfl
  · split
    · exact Or.inl rfl
    · split
      · exact Or.inl rfl
      · rename_i input heq
        split
        · exact Or.inl rfl
        · rename_i hfields
          split
          · exact Or.inl rfl
          · rename_i st2 hok
            cases fault with
            | some msg => simp at hok
            | none =>
              unfold insertUser at hok
              simp only [] at hok
              split at hok
              · simp at hok
              · cases hok
                refine Or.inr ⟨input.name, input.email, ?_, ?_, rfl⟩
                · intro hn
                  exact hfields (by simp [hn])
                · intro he
                  exact hfields (by simp [he])

/-- The outcome of `updateUserHandler` on the state: either untouched,
or every row matching some `oldEmail` had its name and email rewritten
to values that passed the non-empty checks, all other columns and rows
untouched. -/
theorem update_state_cases (method : String) (body : Body) (st : DBState)
    (fault : DBFault) :
    (updateUserHandler method body st fault).2 = st
    ∨ ∃ n e o, n ≠ "" ∧ e ≠ ""
        ∧ (updateUserHandler method body st fault).2
            = ⟨st.rows.map (fun r =>
                 if r.email == o then { r with name := n, email := e } else r),
               st.nextId⟩ := by
  unfold updateUserHandler
  split
  · exact Or.inl rfl
  · split
    · exact Or.inl rfl
    · split
      · exact Or.inl rfl
      · rename_i input heq
        split
        · exact Or.inl rfl
        · rename_i hfields
          split
          · exact Or.inl rfl
          · rename_i st2 hok
            cases fault with
            | some msg => simp at hok
            | none =>
              unfold updateUser at hok
              simp only [] at hok
              split at hok
              · simp at hok
              · cases hok
                refine Or.inr ⟨input.newName, input.newEmail, input.oldEmail, ?_, ?_, rfl⟩
                · intro hn
                  exact hfields (by simp [hn])
                · intro he
                  exact hfields (by simp [he])

/-- The outcome of `deleteUserHandler` on the state: either untouched,
or the rows matching some email were removed and every remaining row
is untouched. -/
theorem delete_state_cases (method : String) (body : Body) (st : DBState)
    (fault : DBFault) :
    (deleteUserHandler method body st fault).2 = st
    ∨ ∃ e, (deleteUserHandler method body st fault).2
        = ⟨st.rows.filter (fun r => r.email != e), st.nextId⟩ := by
  unfold deleteUserHandler
  split
  · exact Or.inl rfl
  · split
    · exact Or.inl rfl
    · split
      · exact Or.inl rfl
      · rename_i email heq
        split
        · exact Or.inl rfl
        · split
          · exact Or.inl rfl
          · exact Or.inr ⟨email, rfl⟩

/-- Decoding a create body of the exact expected shape. -/
theorem decodeCreate_fields (n e : String) :
    decodeCreate (Json.obj [("name", Json.str n), ("email", Json.str e)])
      = some ⟨n, e⟩ := by
  rfl

/-- Decoding an update body of the exact expected shape. -/
theorem decodeUpdate_fields (o n e : String) :
    decodeUpdate (Json.obj [("oldEmail", Json.str o), ("name", Json.str n),
        ("email", Json.str e)])
      = some ⟨o, n, e⟩ := by
  rfl

/-- Decoding a delete body of the exact expected shape. -/
theorem decodeDelete_fields (e : String) :
    decodeDelete (Json.obj [("email", Json.str e)]) = some e := by
  rfl

/-! ### Claims -/

/-- Claim C1 (counterexample): the spec says every database failure is
answered with 500 **and the raw error message echoed in the body** for
all four operations. The delete handler answers a failing DELETE (here
a connection loss with raw message `connection refused`) with the
fixed body `Database error` — the raw message appears nowhere in the
body — so the echo part is false for delete. -/
theorem delete_fault_does_not_echo_raw_message :
    (deleteUserHandler "DELETE"
        (some (Json.obj [("email", Json.str "ann@x.com")], ""))
        ⟨[⟨1, "Ann", "ann@x.com", 0⟩], 2⟩ (some "connection refused")).1.status = 500
    ∧ (deleteUserHandler "DELETE"
        (some (Json.obj [("email", Json.str "ann@x.com")], ""))
        ⟨[⟨1, "Ann", "ann@x.com", 0⟩], 2⟩ (some "connection refused")).1.body
        = "Database error\n"
    ∧ strContains
        (deleteUserHandler "DELETE"
          (some (Json.obj [("email", Json.str "ann@x.com")], ""))
          ⟨[⟨1, "Ann", "ann@x.com", 0⟩], 2⟩ (some "connection refused")).1.body
        "connection refused" = false := by
  decide

/-- Claim C1 (amended): every database failure is answered with status
500, but only the create handler and the list query echo the raw error
message (after the prefix `Database error: `); the update and delete
handlers answer with the fixed body `Database error`, without the raw
message. -/
theorem db_failure_responses (st : DBState) (now : Nat)
    (name email oldEmail msg tail : String)
    (hn : name ≠ "") (he : email ≠ "") (ho : oldEmail ≠ "") :
    (createUserHandler "POST"
        (some (Json.obj [("name", Json.str name), ("email", Json.str email)], tail))
        st now (some msg)).1
      = httpError ("Database error: " ++ msg) 500
    ∧ listUsersHandler "GET" st (some msg) none
      = httpError ("Database error: " ++ msg) 500
    ∧ (updateUserHandler "PUT"
        (some (Json.obj [("oldEmail", Json.str oldEmail), ("name", Json.str name),
                         ("email", Json.str email)], tail))
        st (some msg)).1
      = httpError "Database error" 500
    ∧ (deleteUserHandler "DELETE"
        (some (Json.obj [("email", Json.str email)], tail))
        st (some msg)).1
      = httpError "Database error" 500 := by
  have hn2 : (name == "") = false := by simp [hn]
  have he2 : (email == "") = false := by simp [he]
  have ho2 : (oldEmail == "") = false := by simp [ho]
  refine ⟨?_, rfl, ?_, ?_⟩ <;>
    simp [createUserHandler, updateUserHandler, deleteUserHandler,
      decodeCreate_fields, decodeUpdate_fields, decodeDelete_fields,
      hn2, he2, ho2, httpError]

/-- Witness for the amended C1 theorem at a concrete request. -/
theorem db_failure_responses_witness :
    (createUserHandler "POST"
        (some (Json.obj [("name", Json.str "Ann"), ("email", Json.str "a@b")], ""))
        ⟨[], 1⟩ 5 (some "boom")).1
      = httpError ("Database error: " ++ "boom") 500 :=
  (db_failure_responses ⟨[], 1⟩ 5 "Ann" "a@b" "x@y" "boom" ""
    (by decide) (by decide) (by decide)).1

/-- Claim C2 (counterexample): the spec says listing an empty table
answers 200 with body `[]`. The row slice of the handler is nil when the
table is empty and Go encodes a nil slice as `null`, so the actual
body is `null` (plus the newline the encoder appends), not `[]`. -/
theorem empty_list_body_is_null_not_array :
    listUsersHandler "GET" ⟨[], 1⟩ none none = ⟨200, "null\n"⟩
    ∧ (listUsersHandler "GET" ⟨[], 1⟩ none none).body ≠ "[]"
    ∧ (listUsersHandler "GET" ⟨[], 1⟩ none none).body ≠ "[]\n" := by
  decide

/-- Claim C2 (amended): for every empty table the list operation
answers status 200 — not an error — with body the JSON literal `null`
followed by the newline the encoder appends (the encoding of a Go nil slice),
rather than `[]`. -/
theorem list_empty_table (st : DBState) (h : st.rows = []) :
    listUsersHandler "GET" st none none = ⟨200, "null\n"⟩ := by
  obtain ⟨rows, nid⟩ := st
  cases h
  rfl

/-- Witness for the amended C2 theorem at a concrete empty table. -/
theorem list_empty_table_witness :
    listUsersHandler "GET" ⟨[], 7⟩ none none = ⟨200, "null\n"⟩ :=
  list_empty_table ⟨[], 7⟩ rfl

/-- Claim C3: when exactly one stored row carries email `e`, a second
create request for `e` is answered with status 500 and leaves the
state — in particular the number of rows carrying `e` — unchanged. -/
theorem duplicate_create_rejected_state_unchanged (st : DBState) (now : Nat)
    (name e tail : String) (hn : name ≠ "") (he : e ≠ "")
    (hcount : st.rows.countP (fun r => r.email == e) = 1) :
    (createUserHandler "POST"
        (some (Json.obj [("name", Json.str name), ("email", Json.str e)], tail))
        st now none).1.status = 500
    ∧ (createUserHandler "POST"
        (some (Json.obj [("name", Json.str name), ("email", Json.str e)], tail))
        st now none).2 = st
    ∧ ((createUserHandler "POST"
        (some (Json.obj [("name", Json.str name), ("email", Json.str e)], tail))
        st now none).2.rows.countP (fun r => r.email == e)) = 1 := by
  have hany : st.rows.any (fun r => r.email == e) = true := by
    rw [List.any_eq_true]
    have hpos : 0 < st.rows.countP (fun r => r.email == e) := by omega
    exact List.countP_pos_iff.mp hpos
  have hn2 : (name == "") = false := by simp [hn]
  have he2 : (e == "") = false := by simp [he]
  refine ⟨?_, ?_, ?_⟩ <;>
    simp [createUserHandler, decodeCreate_fields, hn2, he2, insertUser, hany,
      httpError, hcount]

/-- Witness for the C3 theorem at a concrete one-row table. -/
theorem duplicate_create_witness :
    (createUserHandler "POST"
        (some (Json.obj [("name", Json.str "Bob"), ("email", Json.str "a@b")], ""))
        ⟨[⟨1, "Ann", "a@b", 0⟩], 2⟩ 9 none).1.status = 500
    ∧ (createUserHandler "POST"
        (some (Json.obj [("name", Json.str "Bob"), ("email", Json.str "a@b")], ""))
        ⟨[⟨1, "Ann", "a@b", 0⟩], 2⟩ 9 none).2 = ⟨[⟨1, "Ann", "a@b", 0⟩], 2⟩
    ∧ ((createUserHandler "POST"
        (some (Json.obj [("name", Json.str "Bob"), ("email", Json.str "a@b")], ""))
        ⟨[⟨1, "Ann", "a@b", 0⟩], 2⟩ 9 none).2.rows.countP
          (fun r => r.email == "a@b")) = 1 :=
  duplicate_create_rejected_state_unchanged ⟨[⟨1, "Ann", "a@b", 0⟩], 2⟩ 9
    "Bob" "a@b" "" (by decide) (by decide) (by decide)

/-- Claim C4: an update whose three fields are non-empty but whose
`oldEmail` matches no stored row is answered 200 `User updated` and
leaves the state unchanged — indistinguishable from a one-row
update. -/
theorem update_no_match_reports_success (st : DBState)
    (o n e tail : String) (ho : o ≠ "") (hn : n ≠ "") (he : e ≠ "")
    (hnomatch : ∀ r ∈ st.rows, r.email ≠ o) :
    updateUserHandler "PUT"
        (some (Json.obj [("oldEmail", Json.str o), ("name", Json.str n),
            ("email", Json.str e)], tail)) st none
      = (⟨200, "User updated"⟩, st) := by
  have hany : st.rows.any (fun r => r.email == o) = false := by
    rw [List.any_eq_false]
    intro r hr
    simp [hnomatch r hr]
  have hmap : st.rows.map (fun r =>
      if r.email = o then { r with name := n, email := e } else r) = st.rows :=
    map_guard_id_prop st.rows (fun r => r.email = o) _ hnomatch
  have ho2 : (o == "") = false := by simp [ho]
  have hn2 : (n == "") = false := by simp [hn]
  have he2 : (e == "") = false := by simp [he]
  simp [updateUserHandler, decodeUpdate_fields, ho2, hn2, he2, updateUser,
    hany, hmap]

/-- Witness for the C4 theorem at a concrete one-row table. -/
theorem update_no_match_witness :
    updateUserHandler "PUT"
        (some (Json.obj [("oldEmail", Json.str "x@y"), ("name", Json.str "N"),
            ("email", Json.str "n@y")], "")) ⟨[⟨1, "Ann", "a@b", 0⟩], 2⟩ none
      = (⟨200, "User updated"⟩, ⟨[⟨1, "Ann", "a@b", 0⟩], 2⟩) :=
  update_no_match_reports_success ⟨[⟨1, "Ann", "a@b", 0⟩], 2⟩ "x@y" "N" "n@y" ""
    (by decide) (by decide) (by decide)
    (by intro r hr; rw [List.mem_singleton] at hr; subst hr; decide)

/-- Claim C5: a delete whose non-empty email matches no stored row is
answered 200 `User deleted` and leaves the stored rows unchanged. -/
theorem delete_no_match_reports_success (st : DBState) (e tail : String)
    (he : e ≠ "") (hnomatch : ∀ r ∈ st.rows, r.email ≠ e) :
    deleteUserHandler "DELETE" (some (Json.obj [("email", Json.str e)], tail))
        st none
      = (⟨200, "User deleted"⟩, st) := by
  have he2 : (e == "") = false := by simp [he]
  have hfil : st.rows.filter (fun r => r.email != e) = st.rows :=
    filter_all_true _ _ (fun r hr => by simp [hnomatch r hr])
  simp [deleteUserHandler, decodeDelete_fields, he2, deleteUser, hfil]

/-- Witness for the C5 theorem at a concrete one-row table. -/
theorem delete_no_match_witness :
    deleteUserHandler "DELETE"
        (some (Json.obj [("email", Json.str "x@y")], ""))
        ⟨[⟨1, "Ann", "a@b", 0⟩], 2⟩ none
      = (⟨200, "User deleted"⟩, ⟨[⟨1, "Ann", "a@b", 0⟩], 2⟩) :=
  delete_no_match_reports_success ⟨[⟨1, "Ann", "a@b", 0⟩], 2⟩ "x@y" ""
    (by decide)
    (by intro r hr; rw [List.mem_singleton] at hr; subst hr; decide)

/-- Claim C6: the create handler checks its conditions in the order
wrong method → 405, undecodable body → 400 `Invalid JSON`, empty field
→ 400 `Name and email are required`, and only then inserts and answers
201 `User added`. The method check comes first (any non-POST method —
in particular GET — is answered 405 whatever the body), the JSON check
precedes the field check (an undecodable body is answered
`Invalid JSON` whatever fault is pending), and a successful run
appends exactly the new row. -/
theorem create_check_order :
    (∀ method body st now fault, method ≠ "POST" →
       createUserHandler method body st now fault
         = (httpError "Method not allowed" 405, st))
    ∧ (∀ body st now fault, createUserHandler "GET" body st now fault
         = (httpError "Method not allowed" 405, st))
    ∧ (∀ st now fault, createUserHandler "POST" none st now fault
         = (httpError "Invalid JSON" 400, st))
    ∧ (∀ j tail st now fault, decodeCreate j = none →
         createUserHandler "POST" (some (j, tail)) st now fault
           = (httpError "Invalid JSON" 400, st))
    ∧ (∀ j tail u st now fault, decodeCreate j = some u →
         (u.name = "" ∨ u.email = "") →
         createUserHandler "POST" (some (j, tail)) st now fault
           = (httpError "Name and email are required" 400, st))
    ∧ (∀ j tail u st now, decodeCreate j = some u →
         u.name ≠ "" → u.email ≠ "" → (∀ r ∈ st.rows, r.email ≠ u.email) →
         createUserHandler "POST" (some (j, tail)) st now none
           = (⟨201, "User added"⟩,
              ⟨st.rows ++ [⟨st.nextId, u.name, u.email, now⟩],
               st.nextId + 1⟩)) := by
  refine ⟨?_, ?_, ?_, ?_, ?_, ?_⟩
  · intro method body st now fault h
    simp [createUserHandler, h]
  · intro body st now fault
    rfl
  · intro st now fault
    rfl
  · intro j tail st now fault hdec
    simp [createUserHandler, hdec]
  · intro j tail u st now fault hdec h
    rcases h with h | h <;> simp [createUserHandler, hdec, h]
  · intro j tail u st now hdec hn he hnodup
    have hany : st.rows.any (fun r => r.email == u.email) = false := by
      rw [List.any_eq_false]
      intro r hr
      simp [hnodup r hr]
    have hn2 : (u.name == "") = false := by simp [hn]
    have he2 : (u.email == "") = false := by simp [he]
    simp [createUserHandler, hdec, hn2, he2, insertUser, hany]

/-- Witness for the C6 theorem: a GET is answered 405, and a concrete
valid POST on the empty table inserts the row and answers 201. -/
theorem create_check_order_witness :
    createUserHandler "GET" none ⟨[], 1⟩ 4 none
      = (httpError "Method not allowed" 405, ⟨[], 1⟩)
    ∧ createUserHandler "POST"
        (some (Json.obj [("name", Json.str "Ann"), ("email", Json.str "a@b")], ""))
        ⟨[], 1⟩ 4 none
      = (⟨201, "User added"⟩, ⟨[⟨1, "Ann", "a@b", 4⟩], 2⟩) := by
  constructor
  · exact create_check_order.2.1 none ⟨[], 1⟩ 4 none
  · have h := create_check_order.2.2.2.2.2
      (Json.obj [("name", Json.str "Ann"), ("email", Json.str "a@b")]) ""
      ⟨"Ann", "a@b"⟩ ⟨[], 1⟩ 4 (by rfl) (by decide) (by decide)
      (by intro r hr; cases hr)
    simpa using h

/-- Claim C7: a scan failure mid-iteration makes the list handler
answer 500 with the fixed body `Scan error`; no partial list of
results reaches the client — the body is exactly `Scan error` plus
the newline `http.Error` appends. -/
theorem scan_failure_aborts (st : DBState) (k : Nat)
    (hk : k < (selectUsers st).length) :
    listUsersHandler "GET" st none (some k) = httpError "Scan error" 500
    ∧ (listUsersHandler "GET" st none (some k)).body = "Scan error\n" := by
  constructor <;> simp [listUsersHandler, hk, httpError]

/-- Witness for the C7 theorem: scanning row 0 of a one-row table
fails. -/
theorem scan_failure_aborts_witness :
    listUsersHandler "GET" ⟨[⟨1, "Ann", "a@b", 0⟩], 2⟩ none (some 0)
      = httpError "Scan error" 500 :=
  (scan_failure_aborts ⟨[⟨1, "Ann", "a@b", 0⟩], 2⟩ 0 (by decide)).1

/-- Claim C8: no operation ever rewrites `id` or `date_registered`.
Every row present after a create is either an original row or the one
fresh row (whose id is the next SERIAL value and whose timestamp is
the insertion time); every row present after an update corresponds to
an original row with the same id and timestamp (update rewrites only
name and email); every row present after a delete is an original row,
unmodified. -/
theorem id_and_timestamp_frame :
    (∀ method body st now fault r2,
       r2 ∈ (createUserHandler method body st now fault).2.rows →
       r2 ∈ st.rows ∨ (r2.id = st.nextId ∧ r2.dateRegistered = now))
    ∧ (∀ method body st fault r2,
       r2 ∈ (updateUserHandler method body st fault).2.rows →
       ∃ r ∈ st.rows, r2.id = r.id ∧ r2.dateRegistered = r.dateRegistered)
    ∧ (∀ method body st fault r2,
       r2 ∈ (deleteUserHandler method body st fault).2.rows →
       r2 ∈ st.rows) := by
  refine ⟨?_, ?_, ?_⟩
  · intro method body st now fault r2 hmem
    rcases create_state_cases method body st now fault with h | ⟨name, email, hn, he, h⟩
    · rw [h] at hmem
      exact Or.inl hmem
    · rw [h] at hmem
      simp only [List.mem_append, List.mem_singleton] at hmem
      rcases hmem with hmem | rfl
      · exact Or.inl hmem
      · exact Or.inr ⟨rfl, rfl⟩
  · intro method body st fault r2 hmem
    rcases update_state_cases method body st fault with h | ⟨n, e, o, hn, he, h⟩
    · rw [h] at hmem
      exact ⟨r2, hmem, rfl, rfl⟩
    · rw [h] at hmem
      simp only [List.mem_map] at hmem
      obtain ⟨r, hr, hrr⟩ := hmem
      subst hrr
      refine ⟨r, hr, ?_⟩
      by_cases hb : (r.email == o) = true
      · simp [hb]
      · simp [hb]
  · intro method body st fault r2 hmem
    rcases delete_state_cases method body st fault with h | ⟨e, h⟩
    · rw [h] at hmem
      exact hmem
    · rw [h] at hmem
      exact List.mem_of_mem_filter hmem

/-- Witness for the C8 theorem: after a concrete successful update the
surviving row keeps the id and timestamp of an original row. -/
theorem id_and_timestamp_frame_witness :
    ∃ r ∈ ([⟨1, "Ann", "a@b", 5⟩] : List Row),
      (⟨1, "N", "n@y", 5⟩ : Row).id = r.id
      ∧ (⟨1, "N", "n@y", 5⟩ : Row).dateRegistered = r.dateRegistered :=
  id_and_timestamp_frame.2.1 "PUT"
    (some (Json.obj [("oldEmail", Json.str "a@b"), ("name", Json.str "N"),
        ("email", Json.str "n@y")], ""))
    ⟨[⟨1, "Ann", "a@b", 5⟩], 2⟩ none ⟨1, "N", "n@y", 5⟩
    (by
      have hrows : (updateUserHandler "PUT"
          (some (Json.obj [("oldEmail", Json.str "a@b"), ("name", Json.str "N"),
              ("email", Json.str "n@y")], ""))
          ⟨[⟨1, "Ann", "a@b", 5⟩], 2⟩ none).2.rows
            = [⟨1, "N", "n@y", 5⟩] := by rfl
      rw [hrows]
      exact List.mem_singleton.mpr rfl)

/-- Claim C10: the stored-state predicate "every row has a non-empty
name and a non-empty email" is preserved by create, update and delete
(list never writes): the handlers reject empty strings before issuing
any SQL. -/
theorem stored_rows_nonempty_fields (st : DBState) (h : goodState st) :
    (∀ method body now fault,
       goodState (createUserHandler method body st now fault).2)
    ∧ (∀ method body fault,
       goodState (updateUserHandler method body st fault).2)
    ∧ (∀ method body fault,
       goodState (deleteUserHandler method body st fault).2) := by
  refine ⟨?_, ?_, ?_⟩
  · intro method body now fault r hmem
    rcases create_state_cases method body st now fault with hc | ⟨name, email, hn, he, hc⟩
    · rw [hc] at hmem
      exact h r hmem
    · rw [hc] at hmem
      simp only [List.mem_append, List.mem_singleton] at hmem
      rcases hmem with hmem | rfl
      · exact h r hmem
      · exact ⟨hn, he⟩
  · intro method body fault r hmem
    rcases update_state_cases method body st fault with hc | ⟨n, e, o, hn, he, hc⟩
    · rw [hc] at hmem
      exact h r hmem
    · rw [hc] at hmem
      simp only [List.mem_map] at hmem
      obtain ⟨r0, hr0, hrr⟩ := hmem
      subst hrr
      by_cases hb : (r0.email == o) = true
      · simp only [if_pos hb]
        exact ⟨hn, he⟩
      · simp only [if_neg hb]
        exact h r0 hr0
  · intro method body fault r hmem
    rcases delete_state_cases method body st fault with hc | ⟨e, hc⟩
    · rw [hc] at hmem
      exact h r hmem
    · rw [hc] at hmem
      exact h r (List.mem_of_mem_filter hmem)

/-- Witness for the C10 theorem: the invariant holds after a concrete
create on the empty table. -/
theorem stored_rows_nonempty_fields_witness :
    goodState (createUserHandler "POST"
      (some (Json.obj [("name", Json.str "Ann"), ("email", Json.str "a@b")], ""))
      ⟨[], 1⟩ 4 none).2 :=
  (stored_rows_nonempty_fields ⟨[], 1⟩ (by simp [goodState])).1 "POST"
    (some (Json.obj [("name", Json.str "Ann"), ("email", Json.str "a@b")], ""))
    4 none

/-- An object key that matches no struct field is skipped by the
field decoder wherever it sits in the object. -/
theorem decodeStrField_extra (l1 l2 : List (String × Json)) (k : String)
    (v : Json) (tag : String) (h : keyMatches k tag = false) :
    decodeStrField (l1 ++ (k, v) :: l2) tag = decodeStrField (l1 ++ l2) tag := by
  unfold decodeStrField
  rw [List.foldl_append, List.foldl_append, List.foldl_cons]
  congr 1
  cases List.foldl _ (some "") l1 with
  | none => rfl
  | some cur => simp [h]

/-- An unknown key is invisible to the create decoder. -/
theorem decodeCreate_extra (l1 l2 : List (String × Json)) (k : String)
    (v : Json) (h1 : keyMatches k "name" = false)
    (h2 : keyMatches k "email" = false) :
    decodeCreate (Json.obj (l1 ++ (k, v) :: l2))
      = decodeCreate (Json.obj (l1 ++ l2)) := by
  simp only [decodeCreate, decodeStrField_extra l1 l2 k v "name" h1,
    decodeStrField_extra l1 l2 k v "email" h2]

/-- An unknown key is invisible to the update decoder. -/
theorem decodeUpdate_extra (l1 l2 : List (String × Json)) (k : String)
    (v : Json) (h1 : keyMatches k "oldEmail" = false)
    (h2 : keyMatches k "name" = false) (h3 : keyMatches k "email" = false) :
    decodeUpdate (Json.obj (l1 ++ (k, v) :: l2))
      = decodeUpdate (Json.obj (l1 ++ l2)) := by
  simp only [decodeUpdate, decodeStrField_extra l1 l2 k v "oldEmail" h1,
    decodeStrField_extra l1 l2 k v "name" h2,
    decodeStrField_extra l1 l2 k v "email" h3]

/-- An unknown key is invisible to the delete decoder. -/
theorem decodeDelete_extra (l1 l2 : List (String × Json)) (k : String)
    (v : Json) (h : keyMatches k "email" = false) :
    decodeDelete (Json.obj (l1 ++ (k, v) :: l2))
      = decodeDelete (Json.obj (l1 ++ l2)) := by
  simp only [decodeDelete, decodeStrField_extra l1 l2 k v "email" h]

/-- The create handler depends on the body only through the decoder
(and never on the trailing bytes). -/
theorem createUserHandler_congr (method : String) (j1 j2 : Json)
    (t1 t2 : String) (st : DBState) (now : Nat) (fault : DBFault)
    (h : decodeCreate j1 = decodeCreate j2) :
    createUserHandler method (some (j1, t1)) st now fault
      = createUserHandler method (some (j2, t2)) st now fault := by
  simp only [createUserHandler, h]

/-- The update handler depends on the body only through the decoder
(and never on the trailing bytes). -/
theorem updateUserHandler_congr (method : String) (j1 j2 : Json)
    (t1 t2 : String) (st : DBState) (fault : DBFault)
    (h : decodeUpdate j1 = decodeUpdate j2) :
    updateUserHandler method (some (j1, t1)) st fault
      = updateUserHandler method (some (j2, t2)) st fault := by
  simp only [updateUserHandler, h]

/-- The delete handler depends on the body only through the decoder
(and never on the trailing bytes). -/
theorem deleteUserHandler_congr (method : String) (j1 j2 : Json)
    (t1 t2 : String) (st : DBState) (fault : DBFault)
    (h : decodeDelete j1 = decodeDelete j2) :
    deleteUserHandler method (some (j1, t1)) st fault
      = deleteUserHandler method (some (j2, t2)) st fault := by
  simp only [deleteUserHandler, h]

/-- Claim C9: a body whose first JSON value decodes is never rejected
as invalid JSON because of trailing bytes after that value or unknown
extra object keys: trailing bytes never change the answer of any handler,
inserting an unknown key (one matching no struct field) anywhere in
the object never changes the answer of any handler, and a body that
decodes successfully is never answered with the `Invalid JSON`
response. -/
theorem unknown_fields_and_trailing_data_accepted :
    (∀ method j t1 t2 st now fault,
       createUserHandler method (some (j, t1)) st now fault
         = createUserHandler method (some (j, t2)) st now fault)
    ∧ (∀ method j t1 t2 st fault,
       updateUserHandler method (some (j, t1)) st fault
         = updateUserHandler method (some (j, t2)) st fault)
    ∧ (∀ method j t1 t2 st fault,
       deleteUserHandler method (some (j, t1)) st fault
         = deleteUserHandler method (some (j, t2)) st fault)
    ∧ (∀ method l1 l2 k v t st now fault,
       keyMatches k "name" = false → keyMatches k "email" = false →
       createUserHandler method (some (Json.obj (l1 ++ (k, v) :: l2), t)) st now fault
         = createUserHandler method (some (Json.obj (l1 ++ l2), t)) st now fault)
    ∧ (∀ method l1 l2 k v t st fault,
       keyMatches k "oldEmail" = false → keyMatches k "name" = false →
       keyMatches k "email" = false →
       updateUserHandler method (some (Json.obj (l1 ++ (k, v) :: l2), t)) st fault
         = updateUserHandler method (some (Json.obj (l1 ++ l2), t)) st fault)
    ∧ (∀ method l1 l2 k v t st fault,
       keyMatches k "email" = false →
       deleteUserHandler method (some (Json.obj (l1 ++ (k, v) :: l2), t)) st fault
         = deleteUserHandler method (some (Json.obj (l1 ++ l2), t)) st fault)
    ∧ (∀ method j t st now fault u, decodeCreate j = some u →
       (createUserHandler method (some (j, t)) st now fault).1
         ≠ httpError "Invalid JSON" 400)
    ∧ (∀ method j t st fault i, decodeUpdate j = some i →
       (updateUserHandler method (some (j, t)) st fault).1
         ≠ httpError "Invalid JSON" 400)
    ∧ (∀ method j t st fault e, decodeDelete j = some e →
       (deleteUserHandler method (some (j, t)) st fault).1
         ≠ httpError "Invalid JSON" 400) := by
  refine ⟨?_, ?_, ?_, ?_, ?_, ?_, ?_, ?_, ?_⟩
  · intro method j t1 t2 st now fault
    exact createUserHandler_congr method j j t1 t2 st now fault rfl
  · intro method j t1 t2 st fault
    exact updateUserHandler_congr method j j t1 t2 st fault rfl
  · intro method j t1 t2 st fault
    exact deleteUserHandler_congr method j j t1 t2 st fault rfl
  · intro method l1 l2 k v t st now fault h1 h2
    exact createUserHandler_congr method _ _ t t st now fault
      (decodeCreate_extra l1 l2 k v h1 h2)
  · intro method l1 l2 k v t st fault h1 h2 h3
    exact updateUserHandler_congr method _ _ t t st fault
      (decodeUpdate_extra l1 l2 k v h1 h2 h3)
  · intro method l1 l2 k v t st fault h
    exact deleteUserHandler_congr method _ _ t t st fault
      (decodeDelete_extra l1 l2 k v h)
  · intro method j t st now fault u hdec
    unfold createUserHandler
    repeat' split
    all_goals simp_all [httpError]
  · intro method j t st fault i hdec
    unfold updateUserHandler
    repeat' split
    all_goals simp_all [httpError]
  · intro method j t st fault e hdec
    unfold deleteUserHandler
    repeat' split
    all_goals simp_all [httpError]

/-- Witness for the C9 theorem: a concrete create body with an
unknown key `junk` and trailing bytes is handled exactly like the
clean body. -/
theorem unknown_fields_witness :
    createUserHandler "POST"
        (some (Json.obj ([("name", Json.str "Ann")]
            ++ ("junk", Json.num 3) :: [("email", Json.str "a@b")]), "trail"))
        ⟨[], 1⟩ 4 none
      = createUserHandler "POST"
        (some (Json.obj ([("name", Json.str "Ann")]
            ++ [("email", Json.str "a@b")]), "trail"))
        ⟨[], 1⟩ 4 none :=
  unknown_fields_and_trailing_data_accepted.2.2.2.1 "POST"
    [("name", Json.str "Ann")] [("email", Json.str "a@b")]
    "junk" (Json.num 3) "trail" ⟨[], 1⟩ 4 none (by decide) (by decide)

end UserPlatform
